import Mathlib

/-!
Shallow embedding of
`src/engine/apps/alerts/tasks/create_contact_points_for_datasource.py`.

The module has two tasks:

* `schedule_create_contact_points_for_datasource` (the Scheduler): enqueues
  the worker with a 3s countdown and stores the enqueued task's id in the
  cache under a per-integration key, TTL 600s.
* `create_contact_points_for_datasource` (the ReconcileWorker): checks the
  fencing token, looks up the integration, loops over the datasource list
  classifying each one, and either reschedules the failed subset or marks
  the integration's setup complete.

We embed the worker as a pure function from an environment (the fencing
token currently cached, whether the integration exists, and an oracle for
the external Grafana backend calls) to the list of externally visible
actions it performs, together with the retry list it accumulates.
-/

namespace Oncall

/-- A datasource record, as the Python dict `datasource` is used by the task:
only `datasource.get("id")` and `datasource.get("uid")` are read.
`none` models an absent key. -/
structure Datasource where
  dsId : Option Int
  dsUid : Option String
deriving DecidableEq, Repr

/-- Python truthiness of `datasource.get("id")`: absent and `0` are falsy. -/
def truthyId : Option Int → Bool
  | none => false
  | some n => n != 0

/-- Python truthiness of `datasource.get("uid")`: absent and `""` are falsy. -/
def truthyUid : Option String → Bool
  | none => false
  | some s => s != ""

/-- Line 62 of the source:
`is_grafana_datasource = not (datasource.get("id") or datasource.get("uid"))`. -/
def isGrafanaDatasource (d : Datasource) : Bool :=
  !(truthyId d.dsId || truthyUid d.dsUid)

/-- Outcome of the version-aware config fetch
(`alerting_config_with_respect_to_grafana_version` with
`client.get_alerting_config`): either a config object is returned, or
`config is None` together with `response_info.get("status_code")`
(`none` when the response carries no status code). -/
inductive ConfigFetch where
  | present
  | absent (statusCode : Option Int)
deriving DecidableEq, Repr

/-- Oracle for the external Grafana backend during one worker round:
what the config fetch yields for a datasource, and whether
`create_contact_point` returns a contact point (`false` = returns `None`). -/
structure Backend where
  fetchConfig : Datasource → ConfigFetch
  createContactPoint : Datasource → Bool

/-- An externally visible call made by the worker. -/
inductive Action where
  | integrationLookup (integrationId : Int)
  | fetchConfig (d : Datasource)
  | initAlertmanager (d : Datasource)
  | createContactPoint (d : Datasource)
  | reschedule (integrationId : Int) (retry : List Datasource)
  | setSetupComplete (integrationId : Int)
deriving DecidableEq, Repr

/-- HTTP 404, `status.HTTP_404_NOT_FOUND`. -/
def notFoundCode : Int := 404

/-- HTTP 400, `status.HTTP_400_BAD_REQUEST`. -/
def badRequestCode : Int := 400

/-- One iteration of the per-datasource loop (source lines 60-94):
the actions performed for this datasource, and whether it was appended to
`datasources_to_create` (the retry list).

Source logic: `contact_point = None`; fetch the config; if `config is None`
then on 404 issue the alertmanager-status call and attempt creation, on 400
log and `continue` (skipping the final check), otherwise fall through with
`contact_point` still `None`; if the config was present attempt creation;
finally append the datasource iff `contact_point is None`. -/
def processDatasource (b : Backend) (d : Datasource) : List Action × Bool :=
  match b.fetchConfig d with
  | ConfigFetch.present =>
      ([Action.fetchConfig d, Action.createContactPoint d], !b.createContactPoint d)
  | ConfigFetch.absent code =>
      if code = some notFoundCode then
        ([Action.fetchConfig d, Action.initAlertmanager d, Action.createContactPoint d],
          !b.createContactPoint d)
      else if code = some badRequestCode then
        ([Action.fetchConfig d], false)
      else
        ([Action.fetchConfig d], true)

/-- The per-datasource loop over the whole input list: concatenated actions
and the accumulated `datasources_to_create` list, in input order. -/
def workerLoop (b : Backend) : List Datasource → List Action × List Datasource
  | [] => ([], [])
  | d :: rest =>
      let step := processDatasource b d
      let tail := workerLoop b rest
      (step.1 ++ tail.1, (if step.2 then [d] else []) ++ tail.2)

/-- The environment one worker invocation runs in: the fencing token
currently in the cache for this integration (`cache.get(cache_key)`),
whether `AlertReceiveChannel.objects.filter(pk=...).first()` finds the
integration, and the backend oracle. -/
structure Env where
  cachedToken : Option String
  integrationExists : Bool
  backend : Backend

/-- The fencing check, source lines 38-41:
`if cached_task_id is not None and current_task_id != cached_task_id: return`. -/
def fencedOut (cached : Option String) (currentTaskId : String) : Bool :=
  match cached with
  | none => false
  | some t => currentTaskId != t

/-- The worker task `create_contact_points_for_datasource`, as the list of
externally visible actions it performs.  After the fencing check it looks
up the integration (returning if absent), runs the per-datasource loop, and
finally either calls the scheduler with the non-empty retry list or writes
`is_finished_alerting_setup = True`. -/
def create_contact_points_for_datasource (env : Env) (alertReceiveChannelId : Int)
    (datasourceList : List Datasource) (currentTaskId : String) : List Action :=
  if fencedOut env.cachedToken currentTaskId then []
  else if env.integrationExists = false then [Action.integrationLookup alertReceiveChannelId]
  else
    let loop := workerLoop env.backend datasourceList
    Action.integrationLookup alertReceiveChannelId :: loop.1 ++
      (if loop.2 ≠ [] then [Action.reschedule alertReceiveChannelId loop.2]
       else [Action.setSetupComplete alertReceiveChannelId])

/-- Retry lists of successive worker rounds: each round runs the loop with
that round's backend oracle on the previous round's retry list (the
scheduler re-invokes the worker with `datasources_to_create`).  The head is
the retry list of the round run on `l` itself. -/
def retryRounds : List Backend → List Datasource → List (List Datasource)
  | [], _ => []
  | b :: bs, l => (workerLoop b l).2 :: retryRounds bs (workerLoop b l).2

/-- Is the action a call to the Grafana backend client? -/
def isBackendCallAct : Action → Bool
  | Action.fetchConfig _ => true
  | Action.initAlertmanager _ => true
  | Action.createContactPoint _ => true
  | _ => false

/-- Is the action a reschedule (a call back into the scheduler)? -/
def isRescheduleAct : Action → Bool
  | Action.reschedule _ _ => true
  | _ => false

/-- Is the action the completion-flag write on the integration record? -/
def isSetCompleteAct : Action → Bool
  | Action.setSetupComplete _ => true
  | _ => false

/-- Modelled from the spec: the cap of the retry driver
`shared_dedicated_queue_retry_task(autoretry_for=(Exception,),
retry_backoff=True, max_retries=10)` (source line 31), repository code
outside `src/`.  The spec states the driver is "capped at 10 total
attempts; after the cap, the invocation is abandoned". -/
def attemptCap : Nat := 10

/-- Modelled from the spec: the retry driver of source line 31 (repository
code outside `src/`), per the spec's words "any unhandled error during
steps 2-4 triggers automatic re-invocation of the entire attempt with
exponential backoff, capped at 10 total attempts; after the cap, the
invocation is abandoned".  `run i = true` means execution number `i` raises
an unhandled error.  `retryAttempts run c i` is the number of executions
performed starting from execution `i` with `c` attempts still allowed by
the cap: the attempt runs, and on an unhandled error the driver re-invokes
while the cap allows. -/
def retryAttempts (run : Nat → Bool) : Nat → Nat → Nat
  | 0, _ => 0
  | c + 1, i => if run i then 1 + retryAttempts run c (i + 1) else 1

/-- Total number of executions of one worker invocation under the retry
driver, capped at `attemptCap` total attempts. -/
def totalAttempts (run : Nat → Bool) : Nat :=
  retryAttempts run attemptCap 0

/-- Modelled from the spec: `retry_backoff=True` makes the delay before the
(n+1)-st retry exponential in n (Celery uses `2 ** retries` seconds). -/
def retryBackoffDelay (retriesSoFar : Nat) : Nat :=
  2 ^ retriesSoFar

/-! ### Helper lemmas about the per-datasource loop -/

theorem workerLoop_cons (b : Backend) (d : Datasource) (l : List Datasource) :
    workerLoop b (d :: l) =
      ((processDatasource b d).1 ++ (workerLoop b l).1,
       (if (processDatasource b d).2 then [d] else []) ++ (workerLoop b l).2) := rfl

/-- The retry list is an order-preserving subsequence of the input list. -/
theorem workerLoop_snd_sublist (b : Backend) :
    ∀ l : List Datasource, List.Sublist (workerLoop b l).2 l := by
  intro l
  induction l with
  | nil => simp [workerLoop]
  | cons x xs ih =>
    rw [workerLoop_cons]
    by_cases hx : (processDatasource b x).2 = true
    · simpa [hx] using List.Sublist.cons₂ x ih
    · simp only [Bool.not_eq_true] at hx
      simpa [hx] using List.Sublist.cons x ih

/-- Membership in the round's retry list, characterised: the datasource
occurs in the input and its processing appends it. -/
theorem mem_workerLoop_snd (b : Backend) (d : Datasource) :
    ∀ l : List Datasource,
      d ∈ (workerLoop b l).2 ↔ d ∈ l ∧ (processDatasource b d).2 = true := by
  intro l
  induction l with
  | nil => simp [workerLoop]
  | cons x xs ih =>
    rw [workerLoop_cons]
    by_cases hx : (processDatasource b x).2 = true
    · simp only [hx, if_true, List.mem_append, List.mem_cons, List.not_mem_nil, or_false, ih]
      constructor
      · rintro (rfl | ⟨hmem, hp⟩)
        · exact ⟨Or.inl rfl, hx⟩
        · exact ⟨Or.inr hmem, hp⟩
      · rintro ⟨rfl | hmem, hp⟩
        · exact Or.inl rfl
        · exact Or.inr ⟨hmem, hp⟩
    · simp only [Bool.not_eq_true] at hx
      simp only [hx, Bool.false_eq_true, if_false, List.nil_append, List.mem_cons, ih]
      constructor
      · rintro ⟨hmem, hp⟩
        exact ⟨Or.inr hmem, hp⟩
      · rintro ⟨rfl | hmem, hp⟩
        · exact absurd hp (by simp [hx])
        · exact ⟨hmem, hp⟩

/-- Membership in the round's action trace, characterised per datasource. -/
theorem mem_workerLoop_fst (b : Backend) (a : Action) :
    ∀ l : List Datasource,
      a ∈ (workerLoop b l).1 ↔ ∃ x, x ∈ l ∧ a ∈ (processDatasource b x).1 := by
  intro l
  induction l with
  | nil => simp [workerLoop]
  | cons x xs ih =>
    rw [workerLoop_cons]
    simp only [List.mem_append, ih, List.mem_cons]
    constructor
    · rintro (h | ⟨y, hy, hmem⟩)
      · exact ⟨x, Or.inl rfl, h⟩
      · exact ⟨y, Or.inr hy, hmem⟩
    · rintro ⟨y, rfl | hy, hmem⟩
      · exact Or.inl hmem
      · exact Or.inr ⟨y, hy, hmem⟩

theorem processDatasource_fst_countP_reschedule (b : Backend) (d : Datasource) :
    (processDatasource b d).1.countP isRescheduleAct = 0 := by
  rcases h : b.fetchConfig d with _ | code
  · simp [processDatasource, h, isRescheduleAct]
  · simp only [processDatasource, h]
    split
    · simp [isRescheduleAct]
    · split
      · simp [isRescheduleAct]
      · simp [isRescheduleAct]

theorem processDatasource_fst_countP_setComplete (b : Backend) (d : Datasource) :
    (processDatasource b d).1.countP isSetCompleteAct = 0 := by
  rcases h : b.fetchConfig d with _ | code
  · simp [processDatasource, h, isSetCompleteAct]
  · simp only [processDatasource, h]
    split
    · simp [isSetCompleteAct]
    · split
      · simp [isSetCompleteAct]
      · simp [isSetCompleteAct]

theorem workerLoop_fst_countP_reschedule (b : Backend) :
    ∀ l : List Datasource, (workerLoop b l).1.countP isRescheduleAct = 0 := by
  intro l
  induction l with
  | nil => simp [workerLoop]
  | cons x xs ih =>
    rw [workerLoop_cons]
    simp [List.countP_append, ih, processDatasource_fst_countP_reschedule]

theorem workerLoop_fst_countP_setComplete (b : Backend) :
    ∀ l : List Datasource, (workerLoop b l).1.countP isSetCompleteAct = 0 := by
  intro l
  induction l with
  | nil => simp [workerLoop]
  | cons x xs ih =>
    rw [workerLoop_cons]
    simp [List.countP_append, ih, processDatasource_fst_countP_setComplete]

/-- Every round's retry list is drawn from the list that round was run on. -/
theorem retryRounds_subset (d : Datasource) :
    ∀ (bs : List Backend) (l : List Datasource) (r : List Datasource),
      r ∈ retryRounds bs l → d ∈ r → d ∈ l := by
  intro bs
  induction bs with
  | nil => intro l r hr; simp [retryRounds] at hr
  | cons b bs ih =>
    intro l r hr hd
    simp only [retryRounds, List.mem_cons] at hr
    rcases hr with rfl | hr
    · exact (workerLoop_snd_sublist b l).subset hd
    · exact (workerLoop_snd_sublist b l).subset (ih _ _ hr hd)

/-! ### Concrete instances used by witnesses and counterexamples -/

/-- A non-built-in datasource identified by uid. -/
def dsA : Datasource := ⟨none, some "ds-a"⟩

/-- A second datasource identified by id. -/
def dsB : Datasource := ⟨some 10, none⟩

/-- Backend where every fetch finds a config and every creation succeeds. -/
def backendOk : Backend := ⟨fun _ => ConfigFetch.present, fun _ => true⟩

/-- Backend where every fetch finds a config but creation returns nothing. -/
def backendCreateFails : Backend := ⟨fun _ => ConfigFetch.present, fun _ => false⟩

/-- Backend answering 404 to every fetch; creation then succeeds. -/
def backend404Ok : Backend := ⟨fun _ => ConfigFetch.absent (some 404), fun _ => true⟩

/-- Backend answering 404 to every fetch; creation returns nothing. -/
def backend404Fail : Backend := ⟨fun _ => ConfigFetch.absent (some 404), fun _ => false⟩

/-- Backend answering 400 to every fetch. -/
def backend400 : Backend := ⟨fun _ => ConfigFetch.absent (some 400), fun _ => true⟩

/-- Backend answering 500 to every fetch. -/
def backend500 : Backend := ⟨fun _ => ConfigFetch.absent (some 500), fun _ => true⟩

/-! ### Claims -/

/-- C1: if the fencing store holds a token for the integration and it
differs from the invocation's own task id, the worker returns immediately
with zero external calls: no integration lookup, no backend-client call, no
store write, no reschedule (its action trace is empty). -/
theorem superseded_silent_noop (env : Env) (i : Int) (ds : List Datasource)
    (tid t : String) (hc : env.cachedToken = some t) (hne : t ≠ tid) :
    create_contact_points_for_datasource env i ds tid = [] := by
  have hf : fencedOut env.cachedToken tid = true := by
    simp only [fencedOut, hc, bne_iff_ne]
    exact fun h => hne h.symm
  simp [create_contact_points_for_datasource, hf]

/-- Witness for C1 at a concrete environment and input. -/
theorem superseded_silent_noop_witness :
    create_contact_points_for_datasource ⟨some "task-a", true, backendOk⟩ 42 [dsA] "task-b"
      = [] :=
  superseded_silent_noop ⟨some "task-a", true, backendOk⟩ 42 [dsA] "task-b" "task-a" rfl
    (by decide)

/-- C6: when fencing passes but the integration lookup finds nothing, the
worker performs only the lookup: zero calls to the backend client, zero
writes to the integration store (no completion-flag write), no reschedule. -/
theorem missing_integration_frame (env : Env) (i : Int) (ds : List Datasource)
    (tid : String) (hfence : fencedOut env.cachedToken tid = false)
    (hint : env.integrationExists = false) :
    create_contact_points_for_datasource env i ds tid = [Action.integrationLookup i] ∧
    (create_contact_points_for_datasource env i ds tid).countP isBackendCallAct = 0 ∧
    (create_contact_points_for_datasource env i ds tid).countP isSetCompleteAct = 0 ∧
    (create_contact_points_for_datasource env i ds tid).countP isRescheduleAct = 0 := by
  have h : create_contact_points_for_datasource env i ds tid
      = [Action.integrationLookup i] := by
    simp [create_contact_points_for_datasource, hfence, hint]
  refine ⟨h, ?_, ?_, ?_⟩ <;>
    simp [h, isBackendCallAct, isSetCompleteAct, isRescheduleAct]

/-- Witness for C6 at a concrete environment and input. -/
theorem missing_integration_frame_witness :
    create_contact_points_for_datasource ⟨none, false, backendOk⟩ 42 [dsA, dsB] "task-a"
        = [Action.integrationLookup 42] ∧
    (create_contact_points_for_datasource ⟨none, false, backendOk⟩ 42 [dsA, dsB]
        "task-a").countP isBackendCallAct = 0 :=
  ⟨(missing_integration_frame ⟨none, false, backendOk⟩ 42 [dsA, dsB] "task-a" rfl rfl).1,
   (missing_integration_frame ⟨none, false, backendOk⟩ 42 [dsA, dsB] "task-a" rfl rfl).2.1⟩

/-- C2: when fencing passes and the integration exists, exactly one terminal
action happens: a single scheduler call carrying the accumulated retry list
when it is non-empty (and then no completion write), or the completion-flag
write when it is empty (and then no reschedule). -/
theorem convergence_decision (env : Env) (i : Int) (ds : List Datasource)
    (tid : String) (hfence : fencedOut env.cachedToken tid = false)
    (hint : env.integrationExists = true) :
    ((workerLoop env.backend ds).2 ≠ [] →
      (create_contact_points_for_datasource env i ds tid).countP isRescheduleAct = 1 ∧
      Action.reschedule i (workerLoop env.backend ds).2
        ∈ create_contact_points_for_datasource env i ds tid ∧
      (create_contact_points_for_datasource env i ds tid).countP isSetCompleteAct = 0) ∧
    ((workerLoop env.backend ds).2 = [] →
      (create_contact_points_for_datasource env i ds tid).countP isSetCompleteAct = 1 ∧
      Action.setSetupComplete i ∈ create_contact_points_for_datasource env i ds tid ∧
      (create_contact_points_for_datasource env i ds tid).countP isRescheduleAct = 0) := by
  constructor
  · intro hne
    have h : create_contact_points_for_datasource env i ds tid
        = Action.integrationLookup i :: (workerLoop env.backend ds).1
            ++ [Action.reschedule i (workerLoop env.backend ds).2] := by
      simp [create_contact_points_for_datasource, hfence, hint, hne]
    refine ⟨?_, ?_, ?_⟩
    · simp [h, List.countP_cons, List.countP_append, isRescheduleAct,
        workerLoop_fst_countP_reschedule]
    · simp [h]
    · simp [h, List.countP_cons, List.countP_append, isSetCompleteAct,
        workerLoop_fst_countP_setComplete]
  · intro hemp
    have h : create_contact_points_for_datasource env i ds tid
        = Action.integrationLookup i :: (workerLoop env.backend ds).1
            ++ [Action.setSetupComplete i] := by
      simp [create_contact_points_for_datasource, hfence, hint, hemp]
    refine ⟨?_, ?_, ?_⟩
    · simp [h, List.countP_cons, List.countP_append, isSetCompleteAct,
        workerLoop_fst_countP_setComplete]
    · simp [h]
    · simp [h, List.countP_cons, List.countP_append, isRescheduleAct,
        workerLoop_fst_countP_reschedule]

/-- A contact-point-creation action for `d` can only arise from processing
`d` itself. -/
theorem createContactPoint_mem_process (b : Backend) (d x : Datasource)
    (hax : Action.createContactPoint d ∈ (processDatasource b x).1) : d = x := by
  rcases hfx : b.fetchConfig x with _ | code
  · simpa [processDatasource, hfx] using hax
  · simp only [processDatasource, hfx] at hax
    split at hax
    · simpa using hax
    · split at hax <;> simp at hax

/-- C10: the retry list a round produces is an order-preserving subsequence
of the round's input datasource list. -/
theorem retry_list_sublist_of_input (b : Backend) (l : List Datasource) :
    List.Sublist (workerLoop b l).2 l :=
  workerLoop_snd_sublist b l

/-- C3: a datasource whose config fetch yields no config with code 400 is
processed without any creation attempt (its trace is the fetch alone and it
is not appended), no creation call for it appears anywhere in the round's
trace, and it appears in no retry list of this or any subsequent round. -/
theorem bad_request_permanent_skip (b : Backend) (bs : List Backend) (d : Datasource)
    (l : List Datasource)
    (h : b.fetchConfig d = ConfigFetch.absent (some badRequestCode)) :
    processDatasource b d = ([Action.fetchConfig d], false) ∧
    Action.createContactPoint d ∉ (workerLoop b l).1 ∧
    ∀ r ∈ retryRounds (b :: bs) l, d ∉ r := by
  have hp : processDatasource b d = ([Action.fetchConfig d], false) := by
    simp [processDatasource, h, notFoundCode, badRequestCode]
  refine ⟨hp, ?_, ?_⟩
  · intro hmem
    rw [mem_workerLoop_fst] at hmem
    obtain ⟨x, _, hax⟩ := hmem
    have hdx : d = x := createContactPoint_mem_process b d x hax
    rw [← hdx, hp] at hax
    simp at hax
  · intro r hr hd
    have hd0 : d ∈ (workerLoop b l).2 := by
      simp only [retryRounds, List.mem_cons] at hr
      rcases hr with rfl | hr
      · exact hd
      · exact retryRounds_subset d bs _ r hr hd
    rw [mem_workerLoop_snd, hp] at hd0
    simp at hd0

/-- Witness for C3 at a concrete backend sequence and input. -/
theorem bad_request_permanent_skip_witness :
    backend400.fetchConfig dsA = ConfigFetch.absent (some badRequestCode) ∧
    processDatasource backend400 dsA = ([Action.fetchConfig dsA], false) ∧
    ∀ r ∈ retryRounds [backend400, backend500] [dsA, dsB], dsA ∉ r := by
  have h := bad_request_permanent_skip backend400 [backend500] dsA [dsA, dsB] rfl
  exact ⟨rfl, h.1, h.2.2⟩

/-- C4: a datasource whose config fetch yields no config with code 404 is
processed by issuing the alertmanager initialization call and then the
creation attempt anyway (in that order), and it lands in the round's retry
list if and only if the creation attempt returns no contact point. -/
theorem not_found_init_then_create (b : Backend) (d : Datasource) (l : List Datasource)
    (h : b.fetchConfig d = ConfigFetch.absent (some notFoundCode)) :
    processDatasource b d
      = ([Action.fetchConfig d, Action.initAlertmanager d, Action.createContactPoint d],
         !b.createContactPoint d) ∧
    (d ∈ l → Action.initAlertmanager d ∈ (workerLoop b l).1 ∧
      Action.createContactPoint d ∈ (workerLoop b l).1) ∧
    (d ∈ l → (d ∈ (workerLoop b l).2 ↔ b.createContactPoint d = false)) := by
  have hp : processDatasource b d
      = ([Action.fetchConfig d, Action.initAlertmanager d, Action.createContactPoint d],
         !b.createContactPoint d) := by
    simp [processDatasource, h]
  refine ⟨hp, fun hd => ⟨?_, ?_⟩, fun hd => ?_⟩
  · rw [mem_workerLoop_fst]
    exact ⟨d, hd, by rw [hp]; simp⟩
  · rw [mem_workerLoop_fst]
    exact ⟨d, hd, by rw [hp]; simp⟩
  · rw [mem_workerLoop_snd, hp]
    simp [hd, Bool.not_eq_true']

/-- Witness for C4: with a backend answering 404 and failing creation, the
datasource is initialized, attempted, and retried. -/
theorem not_found_init_then_create_witness :
    backend404Fail.fetchConfig dsA = ConfigFetch.absent (some notFoundCode) ∧
    dsA ∈ ([dsA] : List Datasource) ∧
    Action.initAlertmanager dsA ∈ (workerLoop backend404Fail [dsA]).1 ∧
    (dsA ∈ (workerLoop backend404Fail [dsA]).2 ↔
      backend404Fail.createContactPoint dsA = false) := by
  have h := not_found_init_then_create backend404Fail dsA [dsA] rfl
  exact ⟨rfl, by decide, (h.2.1 (by decide)).1, h.2.2 (by decide)⟩

/-- C5: a datasource whose config fetch yields no config with a code that is
neither 404 nor 400 is processed without any creation attempt (its trace is
the fetch alone) and is appended to the current round's retry list. -/
theorem other_code_added_to_retry (b : Backend) (d : Datasource) (l : List Datasource)
    (code : Option Int) (h : b.fetchConfig d = ConfigFetch.absent code)
    (h404 : code ≠ some notFoundCode) (h400 : code ≠ some badRequestCode) :
    processDatasource b d = ([Action.fetchConfig d], true) ∧
    (d ∈ l → d ∈ (workerLoop b l).2) := by
  have hp : processDatasource b d = ([Action.fetchConfig d], true) := by
    simp [processDatasource, h, h404, h400]
  refine ⟨hp, fun hd => ?_⟩
  rw [mem_workerLoop_snd]
  exact ⟨hd, by rw [hp]⟩

/-- Witness for C5: a 500 answer sends the datasource to the retry list
without a creation attempt. -/
theorem other_code_added_to_retry_witness :
    backend500.fetchConfig dsA = ConfigFetch.absent (some 500) ∧
    processDatasource backend500 dsA = ([Action.fetchConfig dsA], true) ∧
    dsA ∈ (workerLoop backend500 [dsA, dsB]).2 := by
  have h := other_code_added_to_retry backend500 dsA [dsA, dsB] (some 500) rfl
    (by decide) (by decide)
  exact ⟨rfl, h.1, h.2 (by decide)⟩

/-- Witness for C2: a round where creation fails reschedules exactly once
with the failed datasource; a round where everything succeeds writes the
completion flag. -/
theorem convergence_decision_witness :
    ((create_contact_points_for_datasource ⟨none, true, backendCreateFails⟩ 42 [dsA]
        "task-a").countP isRescheduleAct = 1 ∧
      Action.reschedule 42 [dsA]
        ∈ create_contact_points_for_datasource ⟨none, true, backendCreateFails⟩ 42 [dsA]
            "task-a") ∧
    ((create_contact_points_for_datasource ⟨none, true, backendOk⟩ 42 [dsA]
        "task-a").countP isSetCompleteAct = 1 ∧
      Action.setSetupComplete 42
        ∈ create_contact_points_for_datasource ⟨none, true, backendOk⟩ 42 [dsA] "task-a") := by
  have h1 := (convergence_decision ⟨none, true, backendCreateFails⟩ 42 [dsA] "task-a"
    rfl rfl).1 (by decide)
  have h2 := (convergence_decision ⟨none, true, backendOk⟩ 42 [dsA] "task-a"
    rfl rfl).2 (by decide)
  exact ⟨⟨h1.1, h1.2.1⟩, ⟨h2.1, h2.2.1⟩⟩

/-- C7 as stated is false: the loop appends once per occurrence in the
input list, so an input that repeats a failing datasource yields a retry
list that repeats it. -/
theorem retry_nodup_counterexample :
    (workerLoop backend500 [dsA, dsA]).2 = [dsA, dsA] ∧
    ¬ (workerLoop backend500 [dsA, dsA]).2.Nodup := by
  constructor
  · rfl
  · decide

/-- C7 amended: when the round's input list has no duplicates, the retry
list it produces has no duplicates (it is a subsequence of the input). -/
theorem retry_nodup_of_input_nodup (b : Backend) (l : List Datasource)
    (h : l.Nodup) : (workerLoop b l).2.Nodup :=
  List.Nodup.sublist (workerLoop_snd_sublist b l) h

/-- Witness for the amended C7 at a concrete duplicate-free input. -/
theorem retry_nodup_of_input_nodup_witness :
    ([dsA, dsB] : List Datasource).Nodup ∧
    (workerLoop backend500 [dsA, dsB]).2.Nodup :=
  ⟨by decide, retry_nodup_of_input_nodup backend500 [dsA, dsB] (by decide)⟩

/-- A datasource whose `id` key holds the (Python-falsy) value 0 and whose
`uid` key is absent. -/
def dsZeroId : Datasource := ⟨some 0, none⟩

/-- C8 as stated is false: `not (datasource.get("id") or datasource.get("uid"))`
uses Python truthiness, so a record with `id = 0` (the id field present but
falsy) is classified as the built-in datasource even though the id field is
not absent. -/
theorem builtin_iff_absent_counterexample :
    isGrafanaDatasource dsZeroId = true ∧ dsZeroId.dsId ≠ none := by
  constructor
  · rfl
  · decide

/-- C8 amended: the worker classifies a record as the built-in datasource
iff its id field is absent or Python-falsy (0) and its uid field is absent
or Python-falsy (the empty string). -/
theorem builtin_iff_both_falsy (d : Datasource) :
    isGrafanaDatasource d = true ↔
      (d.dsId = none ∨ d.dsId = some 0) ∧ (d.dsUid = none ∨ d.dsUid = some "") := by
  rcases d with ⟨i, u⟩
  rcases i with _ | n <;> rcases u with _ | s <;>
    simp [isGrafanaDatasource, truthyId, truthyUid, bne_iff_ne]

/-- A run with a positive attempt budget executes at least once. -/
theorem retryAttempts_pos (run : Nat → Bool) :
    ∀ (c i : Nat), 1 ≤ retryAttempts run (c + 1) i := by
  intro c i
  by_cases h : run i = true
  · cases c with
    | zero => simp [retryAttempts, h]
    | succ c =>
      simp only [retryAttempts, h, if_true]
      omega
  · simp only [Bool.not_eq_true] at h
    simp [retryAttempts, h]

/-- The retry driver never executes more often than its attempt budget. -/
theorem retryAttempts_le (run : Nat → Bool) :
    ∀ (c i : Nat), retryAttempts run c i ≤ c := by
  intro c
  induction c with
  | zero => intro i; simp [retryAttempts]
  | succ c ih =>
    intro i
    by_cases h : run i = true
    · simp only [retryAttempts, h, if_true]
      have := ih (i + 1)
      omega
    · simp only [Bool.not_eq_true] at h
      simp [retryAttempts, h]

/-- C9: an unhandled error triggers automatic re-invocation of the entire
attempt with exponential backoff (a run whose first execution raises is
executed again, and the delay before each successive retry doubles); the
total number of attempts is capped at 10, a cap an always-failing
invocation exactly reaches and is not retried past; a first successful
execution runs exactly once. -/
theorem retry_capped_at_ten (run : Nat → Bool) :
    totalAttempts run ≤ attemptCap ∧
    attemptCap = 10 ∧
    totalAttempts (fun _ => true) = attemptCap ∧
    (run 0 = true → 2 ≤ totalAttempts run) ∧
    (run 0 = false → totalAttempts run = 1) ∧
    (∀ n, retryBackoffDelay (n + 1) = 2 * retryBackoffDelay n) := by
  refine ⟨retryAttempts_le run attemptCap 0, rfl, rfl, ?_, ?_, ?_⟩
  · intro h
    have hstep : totalAttempts run = 1 + retryAttempts run 9 1 := by
      rw [show totalAttempts run
          = if run 0 = true then 1 + retryAttempts run 9 (0 + 1) else 1 from rfl]
      simp [h]
    have hpos : 1 ≤ retryAttempts run 9 1 := retryAttempts_pos run 8 1
    omega
  · intro h
    simp [totalAttempts, attemptCap, retryAttempts, h]
  · intro n
    simp [retryBackoffDelay, pow_succ, Nat.mul_comm]

/-- Witness for C9: a run failing only its first execution satisfies the
cap and runs at least twice; a run succeeding at once runs exactly once. -/
theorem retry_capped_at_ten_witness :
    totalAttempts (fun i => i = 0) ≤ attemptCap ∧
    2 ≤ totalAttempts (fun i => i = 0) ∧
    totalAttempts (fun _ => false) = 1 := by
  have h1 := retry_capped_at_ten (fun i => i = 0)
  have h2 := retry_capped_at_ten (fun _ => false)
  exact ⟨h1.1, h1.2.2.2.1 (by decide), h2.2.2.2.2.1 rfl⟩

end Oncall
